import Mathlib

/-!
Verification of the `jico` CLI (src/main.rs) against its specification.

The program is a thin Jira Cloud REST client.  The logic verified here is the
request-shaping layer: JSON field maps built from CLI arguments, the
plain-text-to-ADF description conversion, directional issue-link payloads,
transition-name resolution, and the response/status handling.

JSON values (serde_json::Value) are modelled by the inductive `Json` below;
serde_json::Map is modelled as an association list with serde's
replace-or-append insertion.  HTTP statuses are modelled by their numeric
code.  The JSON parser used by the HTTP layer (serde_json, a dependency, not
part of this repository) is left abstract: response-handling definitions take
a `parse : String → Option Json` argument standing for it.  The one fact
about that parser some results rely on is that parsing an empty body fails —
the behaviour the spec itself presupposes when it says an empty body is
"treated as an empty JSON object rather than a parse failure"; at those
points the parser is instantiated with a function returning `none`.
-/

/-- serde_json::Value, restricted to the shapes this program builds and reads
(numbers in the payloads of interest are the ADF version 1 and result limits,
so natural numbers suffice). -/
inductive Json where
  | null : Json
  | bool : Bool → Json
  | num : Nat → Json
  | str : String → Json
  | arr : List Json → Json
  | obj : List (String × Json) → Json

/-- Lookup in a serde_json::Map modelled as an association list:
the value of the first (and in this program only) binding of the key. -/
def lookupKV (m : List (String × Json)) (k : String) : Option Json :=
  (m.find? (fun kv => kv.1 == k)).map (fun kv => kv.2)

/-- serde_json::Map::insert: replace the value of an existing binding,
otherwise append a new binding. -/
def insertKV (m : List (String × Json)) (k : String) (v : Json) :
    List (String × Json) :=
  if m.any (fun kv => kv.1 == k) then
    m.map (fun kv => if kv.1 == k then (k, v) else kv)
  else
    m ++ [(k, v)]

/-- The conditional-insert pattern of main.rs
(`if let Some(x) = arg { fields.insert(key, build(x)) }`), with the built
value already mapped over the option: insert when the argument was supplied,
otherwise leave the map unchanged. -/
def optInsertKV (m : List (String × Json)) (k : String) (o : Option Json) :
    List (String × Json) :=
  match o with
  | some v => insertKV m k v
  | none => m

/-- serde_json::Value::get on an object (main.rs uses it on parsed
responses): field lookup; `none` on non-objects. -/
def Json.get (v : Json) (k : String) : Option Json :=
  match v with
  | .obj kvs => lookupKV kvs k
  | _ => none

/-- serde_json::Value::as_str. -/
def Json.asStr (v : Json) : Option String :=
  match v with
  | .str s => some s
  | _ => none

/-- serde_json::Value::as_array. -/
def Json.asArr (v : Json) : Option (List Json) :=
  match v with
  | .arr xs => some xs
  | _ => none

/-- The `LinkRelation` value enum (main.rs lines 116-122). -/
inductive LinkRelation where
  | blocks : LinkRelation
  | blockedBy : LinkRelation

/-- LinkRelation::link_type_name (main.rs lines 125-129): both relations
materialize as a link of type "Blocks". -/
def LinkRelation.link_type_name : LinkRelation → String
  | .blocks => "Blocks"
  | .blockedBy => "Blocks"

/-- LinkRelation::outward_inward_keys (main.rs lines 131-139): for `blocks`
the target (`--to`) is outward and the source (`key`) is inward; for
`blocked-by` the source is outward and the target is inward. -/
def LinkRelation.outward_inward_keys (r : LinkRelation) (key toKey : String) :
    String × String :=
  match r with
  | .blocks => (toKey, key)
  | .blockedBy => (key, toKey)

/-- The issue-link request body built by JiraClient::link_issues
(main.rs lines 405-412). -/
def link_issues_body (key toKey : String) (relation : LinkRelation) : Json :=
  let (outward_key, inward_key) := relation.outward_inward_keys key toKey
  .obj [("type", .obj [("name", .str relation.link_type_name)]),
        ("outwardIssue", .obj [("key", .str outward_key)]),
        ("inwardIssue", .obj [("key", .str inward_key)])]

/-- description_to_adf (main.rs lines 572-584): wrap a plain-text description
into a single-paragraph ADF document. -/
def description_to_adf (text : String) : Json :=
  .obj [("type", .str "doc"),
        ("version", .num 1),
        ("content", .arr [
          .obj [("type", .str "paragraph"),
                ("content", .arr [
                  .obj [("type", .str "text"),
                        ("text", .str text)]])]])]

/-- The fields map built by JiraClient::create_issue (main.rs lines 219-239):
project, summary and issuetype always; description always, as ADF when
supplied and as JSON null otherwise; parent, labels, priority and assignee
only when supplied. -/
def create_issue_fields (project_key summary : String)
    (description : Option String) (issue_type : String)
    (parent : Option String) (labels : Option (List String))
    (priority assignee : Option String) : List (String × Json) :=
  let fields := insertKV [] "project" (.obj [("key", .str project_key)])
  let fields := insertKV fields "summary" (.str summary)
  let fields := insertKV fields "issuetype" (.obj [("name", .str issue_type)])
  let description_adf :=
    match description with
    | some text => description_to_adf text
    | none => .null
  let fields := insertKV fields "description" description_adf
  let fields := optInsertKV fields "parent"
    (parent.map (fun parent => .obj [("key", .str parent)]))
  let fields := optInsertKV fields "labels"
    (labels.map (fun labels => .arr (labels.map .str)))
  let fields := optInsertKV fields "priority"
    (priority.map (fun priority => .obj [("name", .str priority)]))
  optInsertKV fields "assignee"
    (assignee.map (fun assignee => .obj [("accountId", .str assignee)]))

/-- The issue-type defaulting of the create command (main.rs lines 456-462):
an explicit issue type wins; otherwise "Sub-task" when a parent key is
supplied and "Task" when not. -/
def create_issue_type (issue_type : Option String) (parent : Option String) :
    String :=
  issue_type.getD (if parent.isSome then "Sub-task" else "Task")

/-- The fields map the create command sends: main.rs lines 445-476 (issue-type
defaulting, then create_issue). -/
def create_command_fields (project_key summary : String)
    (description : Option String) (issue_type : Option String)
    (parent : Option String) (labels : Option (List String))
    (priority assignee : Option String) : List (String × Json) :=
  create_issue_fields project_key summary description
    (create_issue_type issue_type parent) parent labels priority assignee

/-- The fields map built by the update command (main.rs lines 513-544):
every field only when supplied; the issue type falls back to "Sub-task"
when a parent key is supplied and no explicit issue type is given. -/
def update_command_fields (summary description project issue_type parent :
    Option String) (labels : Option (List String))
    (priority assignee : Option String) : List (String × Json) :=
  let fields := optInsertKV [] "summary" (summary.map .str)
  let fields := optInsertKV fields "description"
    (description.map (fun description => description_to_adf description))
  let fields := optInsertKV fields "project"
    (project.map (fun project => .obj [("key", .str project)]))
  let issue_type :=
    issue_type.or (if parent.isSome then some "Sub-task" else none)
  let fields := optInsertKV fields "issuetype"
    (issue_type.map (fun issue_type => .obj [("name", .str issue_type)]))
  let fields := optInsertKV fields "parent"
    (parent.map (fun parent => .obj [("key", .str parent)]))
  let fields := optInsertKV fields "labels"
    (labels.map (fun labels => .arr (labels.map .str)))
  let fields := optInsertKV fields "priority"
    (priority.map (fun priority => .obj [("name", .str priority)]))
  optInsertKV fields "assignee"
    (assignee.map (fun assignee => .obj [("accountId", .str assignee)]))

/-- The validation error of the update command (main.rs lines 545-549). -/
def update_no_fields_msg : String :=
  "Provide at least one field to update (--summary, --description, --project, --issue-type, --parent, --labels, --priority, --assignee)"

/-- The update command up to the HTTP call (main.rs lines 502-551): build the
fields map; when it is empty, return the validation error before any request
is made; otherwise the PUT request is sent with the map (`.ok fields`). -/
def update_command (key : String) (summary description project issue_type
    parent : Option String) (labels : Option (List String))
    (priority assignee : Option String) :
    Except String (List (String × Json)) :=
  let _ := key
  let fields := update_command_fields summary description project issue_type
    parent labels priority assignee
  if fields.isEmpty then .error update_no_fields_msg
  else .ok fields

/-- str::eq_ignore_ascii_case.  Rust compares the UTF-8 bytes after
ASCII-lowercasing each byte; since ASCII lowercasing only changes the bytes
65-90, which never occur inside multi-byte UTF-8 sequences, this agrees with
comparing the character sequences after ASCII-lowercasing each character,
which is exactly what Char.toLower does. -/
def eqIgnoreAsciiCase (a b : String) : Bool :=
  a.data.map Char.toLower == b.data.map Char.toLower

/-- The predicate of the transition search (main.rs lines 376-381): the
entry has a string field "name" equal to the target case-insensitively. -/
def transition_matches (t : Json) (target : String) : Bool :=
  match (t.get "name").bind Json.asStr with
  | some n => eqIgnoreAsciiCase n target
  | none => false

/-- transitions.iter().find(..) of main.rs lines 376-381: the first entry in
list order whose name matches the target case-insensitively. -/
def find_transition (transitions : List Json) (target : String) :
    Option Json :=
  transitions.find? (fun t => transition_matches t target)

/-- The ASCII apostrophe, U+0027 (used in the transition error message). -/
def squote : String := String.singleton (Char.ofNat 39)

/-- The error message of main.rs line 385:
`Transition <squote><target><squote> not available for <key>`. -/
def transition_missing_msg (target key : String) : String :=
  "Transition " ++ squote ++ target ++ squote ++ " not available for " ++ key

/-- JiraClient::transition_issue after the transitions list was fetched and
parsed (main.rs lines 372-402): read the "transitions" array, find the first
name match, read its string "id"; on failure return the error (the function
returns before the second, POST, request is built or sent); on success
`.ok` carries the body of the POST request that is then submitted. -/
def transition_resolve (key target : String) (payload : Json) :
    Except String Json :=
  match (payload.get "transitions").bind Json.asArr with
  | none => .error "No transitions found in response"
  | some transitions =>
    match (find_transition transitions target).bind
        (fun t => (t.get "id").bind Json.asStr) with
    | none => .error (transition_missing_msg target key)
    | some transition_id =>
      .ok (.obj [("transition", .obj [("id", .str transition_id)])])

/-- Lower-case hexadecimal digit, for the JSON control-character escapes. -/
def hexDigit (n : Nat) : Char :=
  if n < 10 then Char.ofNat (48 + n) else Char.ofNat (87 + n)

/-- JSON string escaping as serde_json prints it: quote, backslash, the named
control escapes, and a u00xx escape for the remaining control characters. -/
def escape_char (c : Char) : String :=
  if c = Char.ofNat 34 then "\\\""
  else if c = Char.ofNat 92 then "\\\\"
  else if c = Char.ofNat 8 then "\\b"
  else if c = Char.ofNat 9 then "\\t"
  else if c = Char.ofNat 10 then "\\n"
  else if c = Char.ofNat 12 then "\\f"
  else if c = Char.ofNat 13 then "\\r"
  else if c.toNat < 32 then
    "\\u00" ++ String.singleton (hexDigit (c.toNat / 16)) ++
      String.singleton (hexDigit (c.toNat % 16))
  else String.singleton c

/-- A JSON string literal as serde_json prints it. -/
def render_string (s : String) : String :=
  "\"" ++ String.join (s.data.map escape_char) ++ "\""

/-- The compact serde_json rendering of a value, as interpolated into the
error messages by the Display implementation of serde_json::Value. -/
def Json.render : Json → String
  | .null => "null"
  | .bool true => "true"
  | .bool false => "false"
  | .num n => toString n
  | .str s => render_string s
  | .arr xs =>
    "[" ++ String.intercalate "," (xs.attach.map (fun x => Json.render x.1))
      ++ "]"
  | .obj kvs =>
    "\x7b" ++ String.intercalate ","
      (kvs.attach.map
        (fun kv => render_string kv.1.1 ++ ":" ++ Json.render kv.1.2)) ++
      "\x7d"
decreasing_by
  · have h1 := List.sizeOf_lt_of_mem x.2
    simp_all
    omega
  · have h1 := List.sizeOf_lt_of_mem kv.2
    obtain ⟨⟨a, b⟩, hmem⟩ := kv
    simp_all
    omega

/-- reqwest StatusCode::is_success: the 2xx range. -/
def is_success (status : Nat) : Bool := 200 ≤ status && status < 300

/-- The error message of the non-success branches (main.rs lines 254, 279,
298, 317, 347, 400, 432): `Jira returned error status <status>: <body>`,
with the body as its serde_json Display rendering and the status by its
numeric code (reqwest prints the code followed by the canonical reason). -/
def jira_error_msg (status : Nat) (value : Json) : String :=
  "Jira returned error status " ++ toString status ++ ": " ++ value.render

/-- resp.json() as used by create_issue, list_issues, get_issue,
get_issue_subtasks and both transition_issue requests (main.rs lines 249-252,
274-277, 293-296, 312-315, 361-364, 395-398): the body is handed to the JSON
parser unconditionally, with no empty-body substitution; a parse failure
yields the context error `ctx`. -/
def resp_json (ctx : String) (parse : String → Option Json) (body : String) :
    Except String Json :=
  match parse body with
  | some value => .ok value
  | none => .error ctx

/-- The body handling of update_issue and link_issues (main.rs lines 337-345
and 422-430): an empty body is replaced by the empty JSON object without
touching the parser; otherwise the body is parsed, a failure yielding the
context error `ctx`. -/
def read_body_json (ctx : String) (parse : String → Option Json)
    (body : String) : Except String Json :=
  if body = "" then .ok (.obj [])
  else
    match parse body with
    | some value => .ok value
    | none => .error ctx

/-- The full response handling of create_issue, list_issues, get_issue and
the transition POST (main.rs lines 248-256 and analogous): parse the body
first (resp.json()), then fail on a non-success status with the
status-and-body error message. -/
def strict_call (ctx : String) (parse : String → Option Json) (status : Nat)
    (body : String) : Except String Json :=
  match resp_json ctx parse body with
  | .error e => .error e
  | .ok value =>
    if is_success status then .ok value
    else .error (jira_error_msg status value)

/-- The full response handling of update_issue and link_issues (main.rs
lines 336-349 and 421-434): read the body with the empty-body substitution,
then fail on a non-success status with the status-and-body error message. -/
def lenient_call (ctx : String) (parse : String → Option Json) (status : Nat)
    (body : String) : Except String Json :=
  match read_body_json ctx parse body with
  | .error e => .error e
  | .ok value =>
    if is_success status then .ok value
    else .error (jira_error_msg status value)

/-- Whether a call result is a success (used to state that no success value
is returned). -/
def isOkResult : Except String Json → Bool
  | .ok _ => true
  | .error _ => false

/-- A sample transition entry, as returned by the transitions GET request. -/
def sample_transition_done : Json :=
  .obj [("id", .str "31"), ("name", .str "Done")]

/-- A sample transitions payload whose first entry matching "done"
(case-insensitively) is `sample_transition_done`. -/
def sample_transitions_payload : Json :=
  .obj [("expand", .str "transitions"),
        ("transitions", .arr [sample_transition_done,
          .obj [("id", .str "11"), ("name", .str "To Do")]])]

/-- A sample transitions payload with no entry matching "Done". -/
def sample_transitions_payload_no_match : Json :=
  .obj [("transitions",
    .arr [.obj [("id", .str "11"), ("name", .str "To Do")]])]

theorem lookupKV_insertKV_self (m : List (String × Json)) (k : String)
    (v : Json) : lookupKV (insertKV m k v) k = some v := by
  unfold insertKV
  by_cases hany : m.any (fun kv => kv.1 == k) = true
  · rw [if_pos hany]
    unfold lookupKV
    rw [List.find?_map]
    have hpf : ((fun kv : String × Json => kv.1 == k) ∘
        (fun kv => if kv.1 == k then (k, v) else kv)) =
        fun kv : String × Json => kv.1 == k := by
      funext kv
      by_cases h : (kv.1 == k) = true
      · simp [Function.comp, h]
      · simp only [Bool.not_eq_true] at h
        simp [Function.comp, h]
    rw [hpf]
    rcases hfind : List.find? (fun kv : String × Json => kv.1 == k) m
        with _ | a
    · exfalso
      rw [List.find?_eq_none] at hfind
      obtain ⟨x, hx, hpx⟩ := List.any_eq_true.mp hany
      exact hfind x hx hpx
    · have hpa := List.find?_some hfind
      simp only [Option.map_some']
      simp [hpa]
  · simp only [Bool.not_eq_true] at hany
    rw [if_neg (by simp [hany])]
    unfold lookupKV
    rw [List.find?_append]
    have hnone : List.find? (fun kv : String × Json => kv.1 == k) m
        = none := by
      rw [List.find?_eq_none]
      intro x hx hpx
      have h2 : m.any (fun kv : String × Json => kv.1 == k) = true :=
        List.any_eq_true.mpr ⟨x, hx, hpx⟩
      rw [hany] at h2
      cases h2
    rw [hnone]
    simp [List.find?]

theorem lookupKV_insertKV_ne (m : List (String × Json)) (k k' : String)
    (v : Json) (hne : (k' == k) = false) :
    lookupKV (insertKV m k v) k' = lookupKV m k' := by
  have hne' : (k == k') = false := by
    cases h : k == k' with
    | false => rfl
    | true =>
      have hk : k = k' := eq_of_beq h
      subst hk
      simp at hne
  unfold insertKV
  by_cases hany : m.any (fun kv => kv.1 == k) = true
  · rw [if_pos hany]
    unfold lookupKV
    rw [List.find?_map]
    have hpf : ((fun kv : String × Json => kv.1 == k') ∘
        (fun kv => if kv.1 == k then (k, v) else kv)) =
        fun kv : String × Json => kv.1 == k' := by
      funext kv
      by_cases h : (kv.1 == k) = true
      · have hkv : kv.1 = k := eq_of_beq h
        simp [Function.comp, h, hkv, hne']
      · simp only [Bool.not_eq_true] at h
        simp [Function.comp, h]
    rw [hpf]
    rcases hfind : List.find? (fun kv : String × Json => kv.1 == k') m
        with _ | a
    · rfl
    · have hpa := List.find?_some hfind
      have ha : a.1 = k' := eq_of_beq hpa
      have hak : a.1 ≠ k := by
        rw [ha]
        intro hkk
        subst hkk
        simp at hne
      simp [hak]
  · simp only [Bool.not_eq_true] at hany
    rw [if_neg (by simp [hany])]
    unfold lookupKV
    rw [List.find?_append]
    have hsingle : List.find? (fun kv : String × Json => kv.1 == k') [(k, v)]
        = none := by
      simp [List.find?, hne']
    rw [hsingle]
    simp

theorem lookupKV_optInsertKV_self (m : List (String × Json)) (k : String)
    (o : Option Json) :
    lookupKV (optInsertKV m k o) k = o.or (lookupKV m k) := by
  cases o with
  | none => rfl
  | some v => simp [optInsertKV, lookupKV_insertKV_self, Option.or]

theorem lookupKV_optInsertKV_ne (m : List (String × Json)) (k k' : String)
    (o : Option Json) (hne : (k' == k) = false) :
    lookupKV (optInsertKV m k o) k' = lookupKV m k' := by
  cases o with
  | none => rfl
  | some v => simp [optInsertKV, lookupKV_insertKV_ne _ _ _ _ hne]

theorem lookupKV_nil (k : String) : lookupKV [] k = none := rfl

theorem option_some_or {α : Type} (a : α) (o : Option α) :
    (some a).or o = some a := rfl

theorem isInfix_data_suffix (s t : String) : t.data <:+: (s ++ t).data := by
  rw [String.data_append]
  exact (List.suffix_append _ _).isInfix

theorem isInfix_data_append_right (l : List Char) (s u : String)
    (h : l <:+: s.data) : l <:+: (s ++ u).data := by
  rw [String.data_append]
  exact h.trans (List.prefix_append _ _).isInfix

theorem find?_first {α : Type} (p : α → Bool) (l : List α) (i : Nat)
    (hi : i < l.length) (hp : p (l.get ⟨i, hi⟩) = true)
    (hfirst : ∀ j (hj : j < i), p (l.get ⟨j, Nat.lt_trans hj hi⟩) = false) :
    l.find? p = some (l.get ⟨i, hi⟩) := by
  induction l generalizing i with
  | nil => cases hi
  | cons a l ih =>
    cases i with
    | zero =>
      exact List.find?_cons_of_pos l hp
    | succ j =>
      have hpa : p a = false := hfirst 0 (Nat.succ_pos j)
      rw [List.find?_cons_of_neg l (by simp [hpa])]
      exact ih j (Nat.lt_of_succ_lt_succ hi) hp
        (fun j' hj' => hfirst (j' + 1) (Nat.succ_lt_succ hj'))

/-- C1: For every pair of issue keys A (source, positional `key`) and
B (target, `--to`), the link payload for relation "blocks" has
outwardIssue.key = B and inwardIssue.key = A, the payload for "blocked-by"
has outwardIssue.key = A and inwardIssue.key = B, and both have
type.name = "Blocks". -/
theorem link_body_outward_inward_and_type (A B : String) :
    ((link_issues_body A B .blocks).get "outwardIssue").bind
        (fun v => v.get "key") = some (.str B) ∧
    ((link_issues_body A B .blocks).get "inwardIssue").bind
        (fun v => v.get "key") = some (.str A) ∧
    ((link_issues_body A B .blockedBy).get "outwardIssue").bind
        (fun v => v.get "key") = some (.str A) ∧
    ((link_issues_body A B .blockedBy).get "inwardIssue").bind
        (fun v => v.get "key") = some (.str B) ∧
    ((link_issues_body A B .blocks).get "type").bind
        (fun v => v.get "name") = some (.str "Blocks") ∧
    ((link_issues_body A B .blockedBy).get "type").bind
        (fun v => v.get "name") = some (.str "Blocks") :=
  ⟨rfl, rfl, rfl, rfl, rfl, rfl⟩

/-- C6: For every input string s, description_to_adf returns exactly the
single-paragraph ADF document
type:"doc", version:1, content:[ paragraph [ text s ] ]. -/
theorem description_to_adf_shape (s : String) :
    description_to_adf s =
      .obj [("type", .str "doc"),
            ("version", .num 1),
            ("content", .arr [
              .obj [("type", .str "paragraph"),
                    ("content", .arr [
                      .obj [("type", .str "text"),
                            ("text", .str s)]])]])] :=
  rfl

/-- C4: For every create invocation that supplies a parent key and no
explicit issue type, the built payload has issuetype.name = "Sub-task";
for every create invocation with neither parent nor explicit issue type,
it has issuetype.name = "Task". -/
theorem create_issue_type_default (project_key summary p : String)
    (description : Option String) (labels : Option (List String))
    (priority assignee : Option String) :
    lookupKV (create_command_fields project_key summary description none
        (some p) labels priority assignee) "issuetype" =
      some (.obj [("name", .str "Sub-task")]) ∧
    lookupKV (create_command_fields project_key summary description none
        none labels priority assignee) "issuetype" =
      some (.obj [("name", .str "Task")]) := by
  constructor <;>
    simp +decide [create_command_fields, create_issue_fields,
      create_issue_type, lookupKV_optInsertKV_ne, lookupKV_insertKV_self,
      lookupKV_insertKV_ne]

/-- C5: For every combination of optional create arguments, the parent,
labels, priority and assignee keys are present in the built fields map
exactly when the corresponding argument was supplied, and then carry the
non-null object/array value built from it; the description key is always
present, as the ADF document when a description was supplied and as JSON
null otherwise. -/
theorem create_fields_optional_keys (project_key summary : String)
    (description : Option String) (issue_type : String)
    (parent : Option String) (labels : Option (List String))
    (priority assignee : Option String) :
    lookupKV (create_issue_fields project_key summary description issue_type
        parent labels priority assignee) "parent" =
      parent.map (fun p => .obj [("key", .str p)]) ∧
    lookupKV (create_issue_fields project_key summary description issue_type
        parent labels priority assignee) "labels" =
      labels.map (fun ls => .arr (ls.map .str)) ∧
    lookupKV (create_issue_fields project_key summary description issue_type
        parent labels priority assignee) "priority" =
      priority.map (fun pr => .obj [("name", .str pr)]) ∧
    lookupKV (create_issue_fields project_key summary description issue_type
        parent labels priority assignee) "assignee" =
      assignee.map (fun a => .obj [("accountId", .str a)]) ∧
    lookupKV (create_issue_fields project_key summary description issue_type
        parent labels priority assignee) "description" =
      some (match description with
        | some text => description_to_adf text
        | none => .null) := by
  refine ⟨?_, ?_, ?_, ?_, ?_⟩ <;>
    simp +decide [create_issue_fields, lookupKV_optInsertKV_ne,
      lookupKV_optInsertKV_self, lookupKV_insertKV_self, lookupKV_insertKV_ne,
      lookupKV_nil, option_some_or, Option.or_none]

/-- C9: For every update invocation in which no optional field argument is
supplied, the command returns the validation error before any HTTP request
is made (`.ok` marks the request being sent, `.error` is returned first). -/
theorem update_no_fields_rejected (key : String) :
    update_command key none none none none none none none none =
      .error update_no_fields_msg :=
  rfl

/-- C10: For every update invocation that supplies a parent key and no
explicit issue type, the built fields map contains
issuetype.name = "Sub-task" in addition to the parent key; for every update
invocation with neither parent nor explicit issue type, no issuetype key is
present. -/
theorem update_issue_type_defaulting (p : String)
    (summary description project : Option String)
    (labels : Option (List String)) (priority assignee : Option String) :
    lookupKV (update_command_fields summary description project none (some p)
        labels priority assignee) "issuetype" =
      some (.obj [("name", .str "Sub-task")]) ∧
    lookupKV (update_command_fields summary description project none (some p)
        labels priority assignee) "parent" =
      some (.obj [("key", .str p)]) ∧
    lookupKV (update_command_fields summary description project none none
        labels priority assignee) "issuetype" = none := by
  refine ⟨?_, ?_, ?_⟩ <;>
    simp +decide [update_command_fields, lookupKV_optInsertKV_ne,
      lookupKV_optInsertKV_self, lookupKV_insertKV_self, lookupKV_insertKV_ne,
      lookupKV_nil, option_some_or, Option.or_none, Option.none_or]

/-- C2: For every fetched transitions list and target name, the transition
command selects the first entry in list order whose name equals the target
case-insensitively; when that entry has a string id, the body submitted in
the second (POST) request carries exactly that id. -/
theorem transition_selects_first_match (key target : String) (payload : Json)
    (ts : List Json) (i : Nat) (hi : i < ts.length) (id : String)
    (hts : payload.get "transitions" = some (.arr ts))
    (hmatch : transition_matches (ts.get ⟨i, hi⟩) target = true)
    (hfirst : ∀ j (hj : j < i),
      transition_matches (ts.get ⟨j, Nat.lt_trans hj hi⟩) target = false)
    (hid : ((ts.get ⟨i, hi⟩).get "id").bind Json.asStr = some id) :
    transition_resolve key target payload =
      .ok (.obj [("transition", .obj [("id", .str id)])]) := by
  have hfind : find_transition ts target = some (ts.get ⟨i, hi⟩) :=
    find?_first (fun t => transition_matches t target) ts i hi hmatch hfirst
  unfold transition_resolve
  rw [hts]
  simp only [Option.bind_some, Json.asArr, hfind, Option.some_bind, hid]

/-- C2 witness: on a concrete transitions payload whose first entry is named
"Done" with id "31", requesting "done" submits id "31". -/
theorem transition_selects_first_match_witness :
    transition_resolve "PROJ-1" "done" sample_transitions_payload =
      .ok (.obj [("transition", .obj [("id", .str "31")])]) :=
  transition_selects_first_match "PROJ-1" "done" sample_transitions_payload
    [sample_transition_done, .obj [("id", .str "11"), ("name", .str "To Do")]]
    0 (by decide) "31" rfl (by decide)
    (fun j hj => absurd hj (Nat.not_lt_zero j)) rfl

/-- C3: For every fetched transitions list containing no entry whose name
matches the requested transition name case-insensitively, the transition
command returns the error naming both the requested transition and the issue
key, and never the `.ok` result that would trigger the second (POST)
request. -/
theorem transition_unmatched_error (key target : String) (payload : Json)
    (ts : List Json)
    (hts : payload.get "transitions" = some (.arr ts))
    (hnone : ∀ t ∈ ts, transition_matches t target = false) :
    transition_resolve key target payload =
      .error (transition_missing_msg target key) ∧
    target.data <:+: (transition_missing_msg target key).data ∧
    key.data <:+: (transition_missing_msg target key).data ∧
    isOkResult (transition_resolve key target payload) = false := by
  have hfind : find_transition ts target = none := by
    rw [find_transition, List.find?_eq_none]
    intro t ht
    simp [hnone t ht]
  have hres : transition_resolve key target payload =
      .error (transition_missing_msg target key) := by
    unfold transition_resolve
    rw [hts]
    simp only [Option.bind_some, Option.some_bind, Json.asArr, hfind,
      Option.none_bind]
  refine ⟨hres, ?_, ?_, ?_⟩
  · unfold transition_missing_msg
    exact isInfix_data_append_right _ _ _ (isInfix_data_append_right _ _ _
      (isInfix_data_append_right _ _ _ (isInfix_data_suffix _ target)))
  · unfold transition_missing_msg
    rw [String.data_append]
    exact (List.suffix_append _ _).isInfix
  · rw [hres]
    rfl

/-- C3 witness: on a concrete transitions payload with no entry named
"Done", the command errors with the message naming "Done" and "PROJ-1". -/
theorem transition_unmatched_error_witness :
    transition_resolve "PROJ-1" "Done" sample_transitions_payload_no_match =
      .error (transition_missing_msg "Done" "PROJ-1") :=
  (transition_unmatched_error "PROJ-1" "Done"
    sample_transitions_payload_no_match
    [.obj [("id", .str "11"), ("name", .str "To Do")]]
    rfl (by decide)).1

/-- C7 counterexample: the claim extends the empty-body substitution to
every command, but the calls using resp.json() (create, list, view,
transition) hand the body to the parser unchanged; with the parser failing
on the empty body — the behaviour the spec itself presupposes — the
transition POST handling of an empty 204-style body is a parse failure,
not the empty JSON object. -/
theorem resp_json_empty_body_parse_failure :
    resp_json "Failed to parse transition response" (fun _ => none) "" =
      .error "Failed to parse transition response" ∧
    isOkResult
        (resp_json "Failed to parse transition response" (fun _ => none) "")
      = false :=
  ⟨rfl, rfl⟩

/-- C7 (amended): for the update and link calls an empty response body is
treated as the empty JSON object without reaching the parser; the calls of
the other commands pass the body to the parser unchanged, so an empty body
there surfaces as the parse failure. -/
theorem empty_body_handling (ctx : String) (parse : String → Option Json) :
    read_body_json ctx parse "" = .ok (.obj []) ∧
    (parse "" = none → resp_json ctx parse "" = .error ctx) := by
  constructor
  · rfl
  · intro h
    simp [resp_json, h]

/-- C7 witness: with a parser failing on the empty body, update and link
resolve an empty body to the empty object while the create call errors. -/
theorem empty_body_handling_witness :
    read_body_json "Failed to parse update issue response" (fun _ => none) ""
      = .ok (.obj []) ∧
    resp_json "Failed to parse create issue response" (fun _ => none) "" =
      .error "Failed to parse create issue response" :=
  ⟨(empty_body_handling "Failed to parse update issue response"
      (fun _ => none)).1,
    (empty_body_handling "Failed to parse create issue response"
      (fun _ => none)).2 rfl⟩

/-- C8 (amended): for every call with a non-2xx status no success value is
returned; whenever the parsed body value is available (the body parses, or
is empty on update/link where it becomes the empty object) the error is the
message embedding both the numeric status code and the rendered response
body; a body that fails to parse yields the parse-context error instead. -/
theorem non_success_status_error (ctx : String)
    (parse : String → Option Json) (status : Nat) (body : String)
    (value : Json) (hstatus : is_success status = false) :
    (parse body = some value →
      strict_call ctx parse status body =
        .error (jira_error_msg status value)) ∧
    (body ≠ "" → parse body = some value →
      lenient_call ctx parse status body =
        .error (jira_error_msg status value)) ∧
    lenient_call ctx parse status "" =
      .error (jira_error_msg status (.obj [])) ∧
    (toString status).data <:+: (jira_error_msg status value).data ∧
    (value.render).data <:+: (jira_error_msg status value).data ∧
    isOkResult (strict_call ctx parse status body) = false ∧
    isOkResult (lenient_call ctx parse status body) = false := by
  refine ⟨?_, ?_, ?_, ?_, ?_, ?_, ?_⟩
  · intro h
    simp [strict_call, resp_json, h, hstatus]
  · intro hb h
    simp [lenient_call, read_body_json, hb, h, hstatus]
  · simp [lenient_call, read_body_json, hstatus]
  · unfold jira_error_msg
    exact isInfix_data_append_right _ _ _ (isInfix_data_append_right _ _ _
      (isInfix_data_suffix "Jira returned error status " (toString status)))
  · unfold jira_error_msg
    rw [String.data_append]
    exact (List.suffix_append _ _).isInfix
  · cases hp : parse body <;>
      simp [strict_call, resp_json, hp, hstatus, isOkResult]
  · by_cases hb : body = "" <;> cases hp : parse body <;>
      simp [lenient_call, read_body_json, hb, hp, hstatus, isOkResult]

/-- C8 witness: a 404 with a parsing body yields the error embedding the
status and the rendered body. -/
theorem non_success_status_error_witness :
    strict_call "Failed to parse get issue response"
        (fun _ => some Json.null) 404 "null" =
      .error (jira_error_msg 404 Json.null) :=
  (non_success_status_error "Failed to parse get issue response"
    (fun _ => some Json.null) 404 "null" Json.null (by decide)).1 rfl

/-- C8 counterexample: a non-2xx response whose body fails to parse (here
the empty body of a transition POST answered with status 409) produces the
parse-failure context error, whose message does not contain the status
code. -/
theorem non_success_unparsed_body_no_status :
    strict_call "Failed to parse transition response" (fun _ => none) 409 ""
      = .error "Failed to parse transition response" ∧
    decide ((toString 409).data <:+:
      ("Failed to parse transition response").data) = false :=
  ⟨rfl, by decide⟩
